import Mathlib

/-!
Verification of the issue-handler layer of a Linear MCP server
(`src/features/issues/handlers/issue.handler.ts` plus its types file).

The handler methods are shallowly embedded as pure Lean functions.  The
GraphQL client is modelled as a record of pure reply functions; each
handler returns the outcome (`Except JsError ToolResponse`) together with
the ordered list of backend calls it made, so that claims about "no
backend call is made" and about the exact arguments passed to a call can
be stated.  JavaScript runtime details that the handlers depend on are
modelled explicitly: string/array truthiness (`jsTruthyStr`, `||`
defaulting), object-key overwriting in the search-filter record, and the
TypeError raised when a property of `undefined` is dereferenced.
-/

/-- `String.prototype.trim`: strip whitespace from both ends (modelled on
the ASCII whitespace of `Char.isWhitespace`), implemented on the
character list so it computes in the kernel. -/
def jsTrimChars (cs : List Char) : List Char :=
  ((cs.dropWhile Char.isWhitespace).reverse.dropWhile Char.isWhitespace).reverse

/-- `String.prototype.trim` on strings. -/
def jsTrim (s : String) : String := (jsTrimChars s.data).asString

/-- `String.prototype.split("-")` at the character-list level: splits on
every hyphen, keeping empty parts. -/
def splitHyphenChars : List Char → List Char → List (List Char)
  | [], acc => [acc.reverse]
  | c :: cs, acc =>
    if c = '-' then acc.reverse :: splitHyphenChars cs []
    else splitHyphenChars cs (c :: acc)

/-- `String.prototype.split("-")` on strings. -/
def jsSplitHyphen (s : String) : List String :=
  (splitHyphenChars s.data []).map List.asString

/-- JavaScript truthiness of an optional string field: `undefined` and the
empty string are falsy. -/
def jsTruthyStr : Option String → Bool
  | none => false
  | some s => s ≠ ""

/-- JavaScript `a || b` for strings: the empty string is falsy. -/
def jsOrStr (a b : String) : String := if a = "" then b else a

/-- JavaScript `a || b` for an optional number (used for `args.first || 50`
and similar defaults): `undefined` and `0` are falsy. -/
def jsOrNat (a : Option Nat) (b : Nat) : Nat :=
  match a with
  | none => b
  | some n => if n = 0 then b else n

/-- JavaScript `a || b` for an optional string (used for
`args.orderBy || "updatedAt"`). -/
def jsOrOptStr (a : Option String) (b : String) : String :=
  match a with
  | none => b
  | some s => if s = "" then b else s

/-- Uppercase ASCII letter, as matched by `[A-Z]`. -/
def isUpperAZ (c : Char) : Bool := ('A' ≤ c) && (c ≤ 'Z')

/-- ASCII digit, as matched by `\d`. -/
def isDigit09 (c : Char) : Bool := ('0' ≤ c) && (c ≤ '9')

/-- Hexadecimal digit, case-insensitive, as matched by `[0-9a-f]` under the
`i` flag. -/
def isHexDigit (c : Char) : Bool :=
  (('0' ≤ c) && (c ≤ '9')) || (('a' ≤ c) && (c ≤ 'f')) || (('A' ≤ c) && (c ≤ 'F'))

/-- The regex `/^[A-Z]+-\d+$/` from `handleSearchIssues`: one or more
uppercase letters, a hyphen, one or more digits, anchored at both ends. -/
def isIdentShaped (s : String) : Bool :=
  let cs := s.data
  let letters := cs.takeWhile isUpperAZ
  let rest := cs.drop letters.length
  (!letters.isEmpty) &&
    (match rest with
     | '-' :: ds => (!ds.isEmpty) && ds.all isDigit09
     | _ => false)

/-- The regex `/^[0-9a-f]{8}-[0-9a-f]{4}-[0-9a-f]{4}-[0-9a-f]{4}-[0-9a-f]{12}$/i`
used by both update handlers to recognise an opaque (UUID-shaped) state id:
five hyphen-separated hexadecimal groups of lengths 8, 4, 4, 4, 12. -/
def isUuidShaped (s : String) : Bool :=
  match jsSplitHyphen s with
  | [a, b, c, d, e] =>
    a.length == 8 && b.length == 4 && c.length == 4 && d.length == 4 &&
    e.length == 12 && a.data.all isHexDigit && b.data.all isHexDigit &&
    c.data.all isHexDigit && d.data.all isHexDigit && e.data.all isHexDigit
  | _ => false

/-- Decimal value of a list of digit characters. -/
def digitsToNat (cs : List Char) : Nat :=
  cs.foldl (fun a c => a * 10 + (c.toNat - '0'.toNat)) 0

/-- `parseInt(s, 10)` restricted to the strings the handler feeds it (the
digit part of an identifier-shaped query): the decimal value of the leading
run of digits. -/
def parseInt10 (s : String) : Nat := digitsToNat (s.data.takeWhile isDigit09)

/-- `String.prototype.toLowerCase`, modelled on ASCII case folding exactly
as `state.name.toLowerCase()` uses it, implemented on the character list
so it computes in the kernel. -/
def jsToLower (s : String) : String := (s.data.map Char.toLower).asString

/-! ## Data model (from `issue.types.ts` and the shapes read by the handler)

Required string fields of a request are modelled as plain `String`
(`""` standing for an absent-or-empty value: both are falsy, and nothing
in the handler distinguishes them for these fields); optional fields are
`Option`-typed.  Response payloads that the GraphQL runtime may omit even
though the TypeScript cast claims otherwise are `Option`-typed. -/

/-- Response projection of an issue (`Issue` in `issue.types.ts`). -/
structure IssueProject where
  name : String
deriving DecidableEq, Repr

/-- Parent reference inside an issue projection. -/
structure IssueParent where
  id : String
  identifier : String
  title : String
deriving DecidableEq, Repr

/-- Workflow-state reference inside an issue projection. -/
structure IssueState where
  name : String
deriving DecidableEq, Repr

/-- `Issue` response projection. -/
structure Issue where
  id : String
  identifier : String
  title : String
  url : String
  project : Option IssueProject
  parent : Option IssueParent
  state : Option IssueState
deriving DecidableEq, Repr

/-- `CreateIssueInput`. -/
structure CreateIssueInput where
  title : String
  description : String
  teamId : String
  assigneeId : Option String := none
  priority : Option Int := none
  projectId : Option String := none
  parentId : Option String := none
deriving DecidableEq, Repr

/-- `CreateIssuesInput`. -/
structure CreateIssuesInput where
  issues : List CreateIssueInput
deriving DecidableEq, Repr

/-- `UpdateIssueInput`: every field optional; `stateId` may hold either an
opaque id or a workflow-state name. -/
structure UpdateIssueInput where
  title : Option String := none
  description : Option String := none
  assigneeId : Option String := none
  priority : Option Int := none
  projectId : Option String := none
  stateId : Option String := none
deriving DecidableEq, Repr

/-- `UpdateIssueInputWithId`: `update` is a required object field, so it is
`Option`-typed to let validation observe its absence (an object present at
all is truthy). -/
structure UpdateIssueInputWithId where
  id : String
  update : Option UpdateIssueInput
deriving DecidableEq, Repr

/-- `BulkUpdateIssuesInput`. -/
structure BulkUpdateIssuesInput where
  issueIds : List String
  update : Option UpdateIssueInput
deriving DecidableEq, Repr

/-- `AddCommentInput`. -/
structure AddCommentInput where
  issueId : String
  body : String
  parentId : Option String := none
  createAsUser : Option String := none
  displayIconUrl : Option String := none
deriving DecidableEq, Repr

/-- The `eq` leaf of the input filter (`{ eq?: string }`). -/
structure EqLeaf where
  eq : Option String := none
deriving DecidableEq, Repr

/-- The `project` member of the input filter (`{ id?: { eq?: string } }`). -/
structure ProjectFilterIn where
  id : Option EqLeaf := none
deriving DecidableEq, Repr

/-- The caller-supplied `filter` object of `SearchIssuesInput`.  The
TypeScript type also declares `team`, `number` and `search` members, but
`handleSearchIssues` only ever reads `filter?.project?.id?.eq`, so only
that path is modelled. -/
structure SearchFilterIn where
  project : Option ProjectFilterIn := none
deriving DecidableEq, Repr

/-- `SearchIssuesInput`. -/
structure SearchIssuesInput where
  query : Option String := none
  filter : Option SearchFilterIn := none
  teamIds : Option (List String) := none
  assigneeIds : Option (List String) := none
  states : Option (List String) := none
  priority : Option Int := none
  first : Option Nat := none
  after : Option String := none
  orderBy : Option String := none
deriving DecidableEq, Repr

/-- `DeleteIssueInput`. -/
structure DeleteIssueInput where
  id : String
deriving DecidableEq, Repr

/-- `DeleteIssuesInput`. -/
structure DeleteIssuesInput where
  ids : List String
deriving DecidableEq, Repr

/-- `GetCommentsInput` (shape read by `handleGetComments`). -/
structure GetCommentsInput where
  issueId : String
  first : Option Nat := none
  after : Option String := none
deriving DecidableEq, Repr

/-- Comment author (`user` in the `Comment` projection). -/
structure CommentUser where
  name : String
  displayName : String
deriving DecidableEq, Repr

/-- `Comment` response projection. -/
structure Comment where
  id : String
  body : String
  url : String
  user : CommentUser
  createdAt : String
deriving DecidableEq, Repr

/-- `issueCreate` payload of `CreateIssueResponse`. -/
structure IssueCreatePayload where
  success : Bool
  issue : Option Issue
deriving DecidableEq, Repr

/-- `CreateIssueResponse`. -/
structure CreateIssueResponse where
  issueCreate : IssueCreatePayload
deriving DecidableEq, Repr

/-- `issueBatchCreate` payload of `CreateIssuesResponse`. -/
structure IssueBatchCreatePayload where
  success : Bool
  issues : Option (List Issue)
deriving DecidableEq, Repr

/-- `CreateIssuesResponse`. -/
structure CreateIssuesResponse where
  issueBatchCreate : IssueBatchCreatePayload
deriving DecidableEq, Repr

/-- `issueUpdate` payload of `UpdateIssuesResponse`.  The TypeScript type
declares `issue: Issue` as always present, but the value comes from an
unchecked cast of runtime JSON, so the payload is modelled as optional. -/
structure IssueUpdatePayload where
  success : Bool
  issue : Option Issue
deriving DecidableEq, Repr

/-- `UpdateIssuesResponse` (used by both single and bulk update). -/
structure UpdateIssuesResponse where
  issueUpdate : IssueUpdatePayload
deriving DecidableEq, Repr

/-- `issueDelete` payload of `DeleteIssueResponse`. -/
structure IssueDeletePayload where
  success : Bool
deriving DecidableEq, Repr

/-- `DeleteIssueResponse` (used by both delete handlers). -/
structure DeleteIssueResponse where
  issueDelete : IssueDeletePayload
deriving DecidableEq, Repr

/-- `commentCreate` payload of `AddCommentResponse`. -/
structure CommentCreatePayload where
  success : Bool
  comment : Option Comment
deriving DecidableEq, Repr

/-- `AddCommentResponse`. -/
structure AddCommentResponse where
  commentCreate : CommentCreatePayload
deriving DecidableEq, Repr

/-- Pagination info of a comments page. -/
structure PageInfo where
  hasNextPage : Bool
  endCursor : Option String
deriving DecidableEq, Repr

/-- The `comments` connection of `GetCommentsResponse`. -/
structure CommentsPage where
  nodes : List Comment
  pageInfo : PageInfo
deriving DecidableEq, Repr

/-- The `issue` member of `GetCommentsResponse`; both it and its
`comments` member are checked for presence by the handler. -/
structure GetCommentsIssue where
  comments : Option CommentsPage
deriving DecidableEq, Repr

/-- `GetCommentsResponse`. -/
structure GetCommentsResponse where
  issue : Option GetCommentsIssue
deriving DecidableEq, Repr

/-- `TeamState` (`team.types.ts`): a workflow state of a team. -/
structure TeamState where
  id : String
  name : String
deriving DecidableEq, Repr

/-- A team as read by the update handlers (`team.states` is the only field
accessed). -/
structure Team where
  states : List TeamState
deriving DecidableEq, Repr

/-- The `teams` connection of the getTeams reply. -/
structure TeamsConnection where
  nodes : List Team
deriving DecidableEq, Repr

/-- The getTeams reply (`teamsResponse.teams.nodes`). -/
structure TeamsResponse where
  teams : TeamsConnection
deriving DecidableEq, Repr

/-- `issues` connection of `SearchIssuesResponse`. -/
structure IssuesConnection where
  pageInfo : PageInfo
  nodes : List Issue
deriving DecidableEq, Repr

/-- `SearchIssuesResponse`. -/
structure SearchIssuesResponse where
  issues : IssuesConnection
deriving DecidableEq, Repr

/-! ## The search filter built by `handleSearchIssues`

The handler builds a plain JavaScript object `filter` by assigning keys
one at a time.  Each key of that object is one field below; assigning a
key twice overwrites it, which the `Option`-valued fields reproduce
(notably `filter.team`, written by both the query branch and the
`teamIds` branch). -/

/-- The value stored under the `team` key: either `{ key: { eq: k } }`
from the identifier-query branch or `{ id: { in: ids } }` from the
`teamIds` branch. -/
inductive TeamFilterOut where
  | keyEq (k : String)
  | idIn (ids : List String)
deriving DecidableEq, Repr

/-- The `filter` object passed to `client.searchIssues`. -/
structure FilterOut where
  team : Option TeamFilterOut := none
  number : Option Nat := none
  search : Option String := none
  project : Option String := none
  assignee : Option (List String) := none
  state : Option (List String) := none
  priority : Option Int := none
deriving DecidableEq, Repr

/-- Query branch of the filter construction (lines 181–191): an
identifier-shaped trimmed query is split on the hyphen into a team key
and an issue number and beats full-text search; otherwise a truthy query
becomes a `search` term; a falsy query contributes nothing. -/
def queryFilter (args : SearchIssuesInput) : FilterOut :=
  let f : FilterOut := {}
  match args.query with
  | some q =>
    if q ≠ "" then
      if isIdentShaped (jsTrim q) then
        let parts := jsSplitHyphen (jsTrim q)
        let teamKey := parts.headD ""
        let issueNumber := parts.getD 1 ""
        { f with team := some (.keyEq teamKey),
                 number := some (parseInt10 issueNumber) }
      else
        { f with search := some q }
    else f
  | none => f

/-- `if (args.filter?.project?.id?.eq) filter.project = ...` (lines
193–195): the optional chain must produce a truthy string. -/
def mergeProjectFilter (f : FilterOut) (args : SearchIssuesInput) : FilterOut :=
  match args.filter with
  | some fi =>
    match fi.project with
    | some p =>
      match p.id with
      | some idLeaf =>
        match idLeaf.eq with
        | some e => if e ≠ "" then { f with project := some e } else f
        | none => f
      | none => f
    | none => f
  | none => f

/-- `if (args.teamIds) filter.team = { id: { in: args.teamIds } }` (lines
196–198): a present array (even empty — arrays are truthy) overwrites the
`team` key. -/
def mergeTeamIds (f : FilterOut) (args : SearchIssuesInput) : FilterOut :=
  match args.teamIds with
  | some ids => { f with team := some (.idIn ids) }
  | none => f

/-- `if (args.assigneeIds) filter.assignee = ...` (lines 199–201). -/
def mergeAssigneeIds (f : FilterOut) (args : SearchIssuesInput) : FilterOut :=
  match args.assigneeIds with
  | some ids => { f with assignee := some ids }
  | none => f

/-- `if (args.states) filter.state = { name: { in: args.states } }` (lines
202–204). -/
def mergeStates (f : FilterOut) (args : SearchIssuesInput) : FilterOut :=
  match args.states with
  | some ss => { f with state := some ss }
  | none => f

/-- `if (typeof args.priority === "number") filter.priority = ...` (lines
205–207). -/
def mergePriority (f : FilterOut) (args : SearchIssuesInput) : FilterOut :=
  match args.priority with
  | some p => { f with priority := some p }
  | none => f

/-- Filter construction of `handleSearchIssues` (lines 178–207): the query
branch first, then each directly supplied filter in source order, each
assignment overwriting its key. -/
def buildFilter (args : SearchIssuesInput) : FilterOut :=
  mergePriority
    (mergeStates
      (mergeAssigneeIds
        (mergeTeamIds
          (mergeProjectFilter (queryFilter args) args) args) args) args) args

/-! ## Client, call trace, errors, responses -/

/-- The GraphQL client adapter, modelled as pure reply functions: each
field gives the parsed reply the backend returns to that operation. -/
structure Client where
  createIssue : CreateIssueInput → CreateIssueResponse
  createIssues : List CreateIssueInput → CreateIssuesResponse
  updateIssue : String → UpdateIssueInput → UpdateIssuesResponse
  updateIssues : List String → UpdateIssueInput → UpdateIssuesResponse
  searchIssues : FilterOut → Nat → Option String → String → SearchIssuesResponse
  deleteIssue : String → DeleteIssueResponse
  deleteIssues : List String → DeleteIssueResponse
  addComment : AddCommentInput → AddCommentResponse
  getComments : String → Nat → Option String → GetCommentsResponse
  getTeams : TeamsResponse

/-- One backend call, with the arguments the handler passed. -/
inductive Call where
  | createIssue (args : CreateIssueInput)
  | createIssues (issues : List CreateIssueInput)
  | updateIssue (id : String) (update : UpdateIssueInput)
  | updateIssues (ids : List String) (update : UpdateIssueInput)
  | searchIssues (filter : FilterOut) (first : Nat) (after : Option String)
      (orderBy : String)
  | deleteIssue (id : String)
  | deleteIssues (ids : List String)
  | addComment (args : AddCommentInput)
  | getComments (issueId : String) (first : Nat) (after : Option String)
  | getTeams
deriving DecidableEq, Repr

/-- Errors a handler can surface.  In the source every failure is a thrown
JavaScript error caught once per operation and re-surfaced by
`handleError` with the operation name attached; the content below is what
was thrown.  `validation` is the error of the spec-modelled
`validateRequiredParams`; `thrown msg` is `throw new Error(msg)` in the
handler body; `typeError fld` is the runtime TypeError raised by reading
property `fld` of `undefined`. -/
inductive JsError where
  | validation (field : String)
  | thrown (msg : String)
  | typeError (fld : String)
deriving DecidableEq, Repr

/-- A tool response: `createResponse` wraps text, `createJsonResponse`
wraps the structured search result. -/
inductive ToolResponse where
  | text (s : String)
  | json (r : SearchIssuesResponse)
deriving DecidableEq, Repr

/-- Outcome of one handler invocation: the result or surfaced error, plus
the ordered backend calls made. -/
abbrev HandlerOutcome := Except JsError ToolResponse × List Call

/-- Modelled from the spec: `validateRequiredParams` of `base.handler.ts`
(not under `src/`).  Given the request's required fields in declared order,
each paired with its JavaScript truthiness (absent, empty-string and
empty-array values count as missing), it reports the first missing field,
or `none` when all are present. -/
def validateRequired (fields : List (String × Bool)) : Option String :=
  (fields.find? (fun p => !p.2)).map (fun p => p.1)

/-- Truthiness of a required string field modelled as plain `String`. -/
def truthyStr (s : String) : Bool := s ≠ ""

/-- Modelled from the spec: a required array field counts as missing when
absent or empty. -/
def truthyArr {α : Type} (l : List α) : Bool := !l.isEmpty

/-- Interpolation of a possibly-null string into a template literal:
JavaScript renders `null` as the text `null`. -/
def jsInterpOptStr : Option String → String
  | some s => s
  | none => "null"

/-- State-name lookup of `handleBulkUpdateIssues` (lines 131–143): scan
teams in listing order; within each team, `team.states.find` returns the
first state whose lowercased name equals the already-lowercased input;
the loop breaks at the first team with a match. -/
def findStateIdBulk : List Team → String → Option String
  | [], _ => none
  | team :: rest, stateName =>
    match team.states.find? (fun state => jsToLower state.name == stateName) with
    | some matchingState => some matchingState.id
    | none => findStateIdBulk rest stateName

/-- State-name lookup of `handleUpdateIssue` (lines 323–335), textually
identical to the bulk one in the source. -/
def findStateIdSingle : List Team → String → Option String
  | [], _ => none
  | team :: rest, stateName =>
    match team.states.find? (fun state => jsToLower state.name == stateName) with
    | some matchingState => some matchingState.id
    | none => findStateIdSingle rest stateName

/-! ## Handler embeddings

Each handler is a pure function of the (already authenticated) client and
the request; `verifyAuth` of the base handler is modelled as having
succeeded, since every claim below concerns an authenticated session.
The `fmt` parameter of the comment handlers models
`new Date(x).toLocaleString()`, a locale-dependent pure function of the
timestamp string kept abstract. -/

/-- `handleCreateIssue` (lines 39–63). -/
def handleCreateIssue (client : Client) (args : CreateIssueInput) :
    HandlerOutcome :=
  match validateRequired
      [("title", truthyStr args.title), ("description", truthyStr args.description),
       ("teamId", truthyStr args.teamId)] with
  | some f => (.error (.validation f), [])
  | none =>
    let result := client.createIssue args
    let calls := [Call.createIssue args]
    match result.issueCreate.success, result.issueCreate.issue with
    | true, some issue =>
      (.ok (.text ("Successfully created issue\n" ++
        "Issue: " ++ issue.identifier ++ "\n" ++
        "Title: " ++ issue.title ++ "\n" ++
        "URL: " ++ issue.url ++ "\n" ++
        "Project: " ++ (match issue.project with
                        | some p => p.name
                        | none => "None") ++
        (match issue.parent with
         | some par => "\nParent: " ++ par.identifier
         | none => ""))), calls)
    | _, _ => (.error (.thrown "Failed to create issue"), calls)

/-- `handleCreateIssues` (lines 68–100).  The `Array.isArray` re-check is
vacuous in the typed model. -/
def handleCreateIssues (client : Client) (args : CreateIssuesInput) :
    HandlerOutcome :=
  match validateRequired [("issues", truthyArr args.issues)] with
  | some f => (.error (.validation f), [])
  | none =>
    let result := client.createIssues args.issues
    let calls := [Call.createIssues args.issues]
    match result.issueBatchCreate.success, result.issueBatchCreate.issues with
    | true, some createdIssues =>
      (.ok (.text ("Successfully created " ++ toString createdIssues.length ++
        " issues:\n" ++
        String.intercalate "\n" (createdIssues.map (fun issue =>
          "- " ++ issue.identifier ++ ": " ++ issue.title ++
          "\n  URL: " ++ issue.url ++
          (match issue.parent with
           | some par => "\n  Parent: " ++ par.identifier
           | none => ""))))), calls)
    | _, _ => (.error (.thrown "Failed to create issues"), calls)

/-- Mutation-and-format tail of `handleBulkUpdateIssues` (lines 155–166):
only the reply's success flag is inspected; the confirmation counts the
caller-supplied ids. -/
def bulkUpdateMutation (client : Client) (issueIds : List String)
    (upd : UpdateIssueInput) (calls0 : List Call) : HandlerOutcome :=
  let result := client.updateIssues issueIds upd
  let calls := calls0 ++ [Call.updateIssues issueIds upd]
  if result.issueUpdate.success then
    (.ok (.text ("Successfully updated " ++ toString issueIds.length ++
      " issues")), calls)
  else
    (.error (.thrown "Failed to update issues"), calls)

/-- `handleBulkUpdateIssues` (lines 105–170). -/
def handleBulkUpdateIssues (client : Client) (args : BulkUpdateIssuesInput) :
    HandlerOutcome :=
  match validateRequired
      [("issueIds", truthyArr args.issueIds), ("update", args.update.isSome)] with
  | some f => (.error (.validation f), [])
  | none =>
    match args.update with
    | none =>
      -- dead branch: validation has already reported an absent `update`
      (.error (.validation "update"), [])
    | some upd =>
      match upd.stateId with
      | some s =>
        if truthyStr s && !isUuidShaped s then
          let stateName := jsToLower s
          let teams := (client.getTeams).teams.nodes
          match findStateIdBulk teams stateName with
          | none =>
            (.error (.thrown ("Could not find state with name: " ++ s)),
             [Call.getTeams])
          | some stateId =>
            bulkUpdateMutation client args.issueIds
              { upd with stateId := some stateId } [Call.getTeams]
        else
          bulkUpdateMutation client args.issueIds upd []
      | none => bulkUpdateMutation client args.issueIds upd []

/-- `handleSearchIssues` (lines 175–220): no required-field validation;
builds the filter, applies the `first`/`orderBy` defaults, and passes the
backend's paginated result through as structured JSON. -/
def handleSearchIssues (client : Client) (args : SearchIssuesInput) :
    HandlerOutcome :=
  let filter := buildFilter args
  let first := jsOrNat args.first 50
  let orderBy := jsOrOptStr args.orderBy "updatedAt"
  let result := client.searchIssues filter first args.after orderBy
  (.ok (.json result), [Call.searchIssues filter first args.after orderBy])

/-- `handleDeleteIssue` (lines 225–240). -/
def handleDeleteIssue (client : Client) (args : DeleteIssueInput) :
    HandlerOutcome :=
  match validateRequired [("id", truthyStr args.id)] with
  | some f => (.error (.validation f), [])
  | none =>
    let result := client.deleteIssue args.id
    let calls := [Call.deleteIssue args.id]
    if result.issueDelete.success then
      (.ok (.text ("Successfully deleted issue " ++ args.id)), calls)
    else
      (.error (.thrown "Failed to delete issue"), calls)

/-- `handleDeleteIssues` (lines 245–268). -/
def handleDeleteIssues (client : Client) (args : DeleteIssuesInput) :
    HandlerOutcome :=
  match validateRequired [("ids", truthyArr args.ids)] with
  | some f => (.error (.validation f), [])
  | none =>
    let result := client.deleteIssues args.ids
    let calls := [Call.deleteIssues args.ids]
    if result.issueDelete.success then
      (.ok (.text ("Successfully deleted " ++ toString args.ids.length ++
        " issues: " ++ String.intercalate ", " args.ids)), calls)
    else
      (.error (.thrown "Failed to delete issues"), calls)

/-- `handleAddComment` (lines 273–296). -/
def handleAddComment (fmt : String → String) (client : Client)
    (args : AddCommentInput) : HandlerOutcome :=
  match validateRequired
      [("issueId", truthyStr args.issueId), ("body", truthyStr args.body)] with
  | some f => (.error (.validation f), [])
  | none =>
    let result := client.addComment args
    let calls := [Call.addComment args]
    match result.commentCreate.success, result.commentCreate.comment with
    | true, some comment =>
      (.ok (.text ("Successfully added comment to issue\n" ++
        "Comment ID: " ++ comment.id ++ "\n" ++
        "URL: " ++ comment.url ++ "\n" ++
        "By: " ++ jsOrStr comment.user.displayName comment.user.name ++ "\n" ++
        "Created at: " ++ fmt comment.createdAt)), calls)
    | _, _ => (.error (.thrown "Failed to add comment"), calls)

/-- Mutation-and-format tail of `handleUpdateIssue` (lines 347–363): only
the success flag is checked; `result.issueUpdate.issue` is then
dereferenced unconditionally, so a missing issue payload raises the
runtime TypeError of reading `identifier` on `undefined`. -/
def singleUpdateMutation (client : Client) (id : String)
    (upd : UpdateIssueInput) (calls0 : List Call) : HandlerOutcome :=
  let result := client.updateIssue id upd
  let calls := calls0 ++ [Call.updateIssue id upd]
  if result.issueUpdate.success then
    match result.issueUpdate.issue with
    | none => (.error (.typeError "identifier"), calls)
    | some issue =>
      (.ok (.text ("Successfully updated issue " ++ issue.identifier ++ "\n" ++
        "Title: " ++ issue.title ++ "\n" ++
        "URL: " ++ issue.url ++ "\n" ++
        "State: " ++ (match issue.state with
                      | some st => jsOrStr st.name "Unknown"
                      | none => "Unknown"))), calls)
  else
    (.error (.thrown "Failed to update issue"), calls)

/-- `handleUpdateIssue` (lines 301–367). -/
def handleUpdateIssue (client : Client) (args : UpdateIssueInputWithId) :
    HandlerOutcome :=
  match validateRequired
      [("id", truthyStr args.id), ("update", args.update.isSome)] with
  | some f => (.error (.validation f), [])
  | none =>
    match args.update with
    | none =>
      -- dead branch: validation has already reported an absent `update`
      (.error (.validation "update"), [])
    | some upd =>
      match upd.stateId with
      | some s =>
        if truthyStr s && !isUuidShaped s then
          let stateName := jsToLower s
          let teams := (client.getTeams).teams.nodes
          match findStateIdSingle teams stateName with
          | none =>
            (.error (.thrown ("Could not find state with name: " ++ s)),
             [Call.getTeams])
          | some stateId =>
            singleUpdateMutation client args.id
              { upd with stateId := some stateId } [Call.getTeams]
        else
          singleUpdateMutation client args.id upd []
      | none => singleUpdateMutation client args.id upd []

/-- Comment-list rendering of `handleGetComments` (lines 391–399): the
count line followed by one enumerated, 1-indexed entry per comment. -/
def renderComments (fmt : String → String) (comments : List Comment) :
    String :=
  comments.enum.foldl (fun acc p =>
    acc ++ toString (p.1 + 1) ++ ". Comment by " ++
    jsOrStr p.2.user.displayName p.2.user.name ++
    " (" ++ fmt p.2.createdAt ++ "):\n" ++
    p.2.body ++ "\n" ++
    "URL: " ++ p.2.url ++ "\n\n")
    ("Found " ++ toString comments.length ++ " comments:\n\n")

/-- `handleGetComments` (lines 372–409). -/
def handleGetComments (fmt : String → String) (client : Client)
    (args : GetCommentsInput) : HandlerOutcome :=
  match validateRequired [("issueId", truthyStr args.issueId)] with
  | some f => (.error (.validation f), [])
  | none =>
    let first := jsOrNat args.first 50
    let result := client.getComments args.issueId first args.after
    let calls := [Call.getComments args.issueId first args.after]
    match result.issue with
    | none => (.error (.thrown "Failed to get comments or issue not found"), calls)
    | some issueNode =>
      match issueNode.comments with
      | none =>
        (.error (.thrown "Failed to get comments or issue not found"), calls)
      | some page =>
        let comments := page.nodes
        let pageInfo := page.pageInfo
        let responseText := renderComments fmt comments
        let responseText :=
          if pageInfo.hasNextPage then
            responseText ++ "\nThere are more comments available. Use \x27after: \"" ++
              jsInterpOptStr pageInfo.endCursor ++
              "\"\x27 to fetch the next page."
          else responseText
        (.ok (.text responseText), calls)

/-! ## Helper lemmas -/

theorem takeWhile_of_all {p : Char → Bool} {cs : List Char}
    (h : cs.all p = true) : cs.takeWhile p = cs := by
  induction cs with
  | nil => rfl
  | cons c cs ih =>
    simp only [List.all_cons, Bool.and_eq_true] at h
    simp [List.takeWhile, h.1, ih h.2]

theorem takeWhile_append_stop {p : Char → Bool} {xs : List Char}
    {y : Char} {ys : List Char} (hx : xs.all p = true) (hy : p y = false) :
    (xs ++ y :: ys).takeWhile p = xs := by
  induction xs with
  | nil => simp [List.takeWhile, hy]
  | cons c cs ih =>
    simp only [List.all_cons, Bool.and_eq_true] at hx
    simp [List.takeWhile, hx.1, ih hx.2]

theorem splitHyphenChars_no_hyphen {cs : List Char} (acc : List Char)
    (h : cs.all (fun c => !(c == '-')) = true) :
    splitHyphenChars cs acc = [acc.reverse ++ cs] := by
  induction cs generalizing acc with
  | nil => simp [splitHyphenChars]
  | cons c cs ih =>
    simp only [List.all_cons, Bool.and_eq_true] at h
    have hc : ¬ (c = '-') := by
      intro he
      rw [he] at h
      simp at h
    simp [splitHyphenChars, hc, ih (c :: acc) h.2]

theorem splitHyphenChars_split {L D : List Char} (acc : List Char)
    (hL : L.all (fun c => !(c == '-')) = true)
    (hD : D.all (fun c => !(c == '-')) = true) :
    splitHyphenChars (L ++ '-' :: D) acc = [acc.reverse ++ L, D] := by
  induction L generalizing acc with
  | nil =>
    simp [splitHyphenChars, splitHyphenChars_no_hyphen ([] : List Char) hD]
  | cons c cs ih =>
    simp only [List.all_cons, Bool.and_eq_true] at hL
    have hc : ¬ (c = '-') := by
      intro he
      rw [he] at hL
      simp at hL
    simp only [List.cons_append, splitHyphenChars, if_neg hc, List.append_eq]
    rw [ih (c :: acc) hL.2]
    simp

theorem upperAZ_not_hyphen {c : Char} (h : isUpperAZ c = true) :
    (c == '-') = false := by
  cases hbc : (c == '-') with
  | false => rfl
  | true => exact absurd (by rw [eq_of_beq hbc] at h; exact h) (by decide)

theorem digit09_not_hyphen {c : Char} (h : isDigit09 c = true) :
    (c == '-') = false := by
  cases hbc : (c == '-') with
  | false => rfl
  | true => exact absurd (by rw [eq_of_beq hbc] at h; exact h) (by decide)

theorem all_not_hyphen_of_upper {cs : List Char}
    (h : cs.all isUpperAZ = true) : cs.all (fun c => !(c == '-')) = true := by
  rw [List.all_eq_true] at h ⊢
  intro c hc
  simp [upperAZ_not_hyphen (h c hc)]

theorem all_not_hyphen_of_digit {cs : List Char}
    (h : cs.all isDigit09 = true) : cs.all (fun c => !(c == '-')) = true := by
  rw [List.all_eq_true] at h ⊢
  intro c hc
  simp [digit09_not_hyphen (h c hc)]

theorem data_concat_hyphen (L D : String) :
    (L ++ "-" ++ D).data = L.data ++ '-' :: D.data := by
  simp [String.data_append]

theorem string_ne_empty_iff_data {s : String} : s ≠ "" ↔ s.data ≠ [] := by
  constructor
  · intro h hd
    exact h (by cases s with | mk d => simp at hd; simp [hd])
  · intro h he
    rw [he] at h
    exact h rfl

theorem isIdentShaped_concat {L D : String} (hL0 : L ≠ "") (hD0 : D ≠ "")
    (hL : L.data.all isUpperAZ = true) (hD : D.data.all isDigit09 = true) :
    isIdentShaped (L ++ "-" ++ D) = true := by
  simp only [isIdentShaped]
  rw [data_concat_hyphen, takeWhile_append_stop hL (by decide), List.drop_left]
  have hLne : ¬ L.data.isEmpty := by
    rw [List.isEmpty_iff]
    exact string_ne_empty_iff_data.mp hL0
  have hDne : ¬ D.data.isEmpty := by
    rw [List.isEmpty_iff]
    exact string_ne_empty_iff_data.mp hD0
  simp [hLne, hDne, hD]

theorem jsSplitHyphen_concat {L D : String}
    (hL : L.data.all isUpperAZ = true) (hD : D.data.all isDigit09 = true) :
    jsSplitHyphen (L ++ "-" ++ D) = [L, D] := by
  unfold jsSplitHyphen
  rw [data_concat_hyphen,
    splitHyphenChars_split [] (all_not_hyphen_of_upper hL)
      (all_not_hyphen_of_digit hD)]
  rfl

theorem parseInt10_of_digits {D : String} (hD : D.data.all isDigit09 = true) :
    parseInt10 D = digitsToNat D.data := by
  unfold parseInt10
  rw [takeWhile_of_all hD]

/-- The truthy value of the optional chain `args.filter?.project?.id?.eq`,
used to characterise `mergeProjectFilter`. -/
def projectEqIn (args : SearchIssuesInput) : Option String :=
  match args.filter with
  | some fi =>
    match fi.project with
    | some p =>
      match p.id with
      | some idLeaf =>
        match idLeaf.eq with
        | some e => if e ≠ "" then some e else none
        | none => none
      | none => none
    | none => none
  | none => none

theorem mergeProjectFilter_eq (f : FilterOut) (args : SearchIssuesInput) :
    mergeProjectFilter f args =
      match projectEqIn args with
      | some e => { f with project := some e }
      | none => f := by
  rcases args with ⟨q, fi, ti, ai, ss, pr, fs, af, ob⟩
  rcases fi with _ | ⟨proj⟩
  · rfl
  rcases proj with _ | ⟨idLeaf⟩
  · rfl
  rcases idLeaf with _ | ⟨eqv⟩
  · rfl
  rcases eqv with _ | ⟨e⟩
  · rfl
  by_cases he : e = "" <;>
    simp [mergeProjectFilter, projectEqIn, he]

theorem mergeProjectFilter_team (f : FilterOut) (args : SearchIssuesInput) :
    (mergeProjectFilter f args).team = f.team := by
  rw [mergeProjectFilter_eq]; cases projectEqIn args <;> rfl

theorem mergeProjectFilter_number (f : FilterOut) (args : SearchIssuesInput) :
    (mergeProjectFilter f args).number = f.number := by
  rw [mergeProjectFilter_eq]; cases projectEqIn args <;> rfl

theorem mergeProjectFilter_search (f : FilterOut) (args : SearchIssuesInput) :
    (mergeProjectFilter f args).search = f.search := by
  rw [mergeProjectFilter_eq]; cases projectEqIn args <;> rfl

theorem mergeProjectFilter_assignee (f : FilterOut) (args : SearchIssuesInput) :
    (mergeProjectFilter f args).assignee = f.assignee := by
  rw [mergeProjectFilter_eq]; cases projectEqIn args <;> rfl

theorem mergeProjectFilter_state (f : FilterOut) (args : SearchIssuesInput) :
    (mergeProjectFilter f args).state = f.state := by
  rw [mergeProjectFilter_eq]; cases projectEqIn args <;> rfl

theorem mergeProjectFilter_priority (f : FilterOut) (args : SearchIssuesInput) :
    (mergeProjectFilter f args).priority = f.priority := by
  rw [mergeProjectFilter_eq]; cases projectEqIn args <;> rfl

theorem mergeProjectFilter_project (f : FilterOut) (args : SearchIssuesInput) :
    (mergeProjectFilter f args).project =
      match projectEqIn args with
      | some e => some e
      | none => f.project := by
  rw [mergeProjectFilter_eq]; cases projectEqIn args <;> rfl

theorem mergeTeamIds_team (f : FilterOut) (args : SearchIssuesInput) :
    (mergeTeamIds f args).team =
      match args.teamIds with
      | some ids => some (.idIn ids)
      | none => f.team := by
  unfold mergeTeamIds; cases args.teamIds <;> rfl

theorem mergeTeamIds_number (f : FilterOut) (args : SearchIssuesInput) :
    (mergeTeamIds f args).number = f.number := by
  unfold mergeTeamIds; cases args.teamIds <;> rfl

theorem mergeTeamIds_search (f : FilterOut) (args : SearchIssuesInput) :
    (mergeTeamIds f args).search = f.search := by
  unfold mergeTeamIds; cases args.teamIds <;> rfl

theorem mergeTeamIds_project (f : FilterOut) (args : SearchIssuesInput) :
    (mergeTeamIds f args).project = f.project := by
  unfold mergeTeamIds; cases args.teamIds <;> rfl

theorem mergeTeamIds_assignee (f : FilterOut) (args : SearchIssuesInput) :
    (mergeTeamIds f args).assignee = f.assignee := by
  unfold mergeTeamIds; cases args.teamIds <;> rfl

theorem mergeTeamIds_state (f : FilterOut) (args : SearchIssuesInput) :
    (mergeTeamIds f args).state = f.state := by
  unfold mergeTeamIds; cases args.teamIds <;> rfl

theorem mergeTeamIds_priority (f : FilterOut) (args : SearchIssuesInput) :
    (mergeTeamIds f args).priority = f.priority := by
  unfold mergeTeamIds; cases args.teamIds <;> rfl

theorem mergeAssigneeIds_assignee (f : FilterOut) (args : SearchIssuesInput) :
    (mergeAssigneeIds f args).assignee =
      match args.assigneeIds with
      | some ids => some ids
      | none => f.assignee := by
  unfold mergeAssigneeIds; cases args.assigneeIds <;> rfl

theorem mergeAssigneeIds_team (f : FilterOut) (args : SearchIssuesInput) :
    (mergeAssigneeIds f args).team = f.team := by
  unfold mergeAssigneeIds; cases args.assigneeIds <;> rfl

theorem mergeAssigneeIds_number (f : FilterOut) (args : SearchIssuesInput) :
    (mergeAssigneeIds f args).number = f.number := by
  unfold mergeAssigneeIds; cases args.assigneeIds <;> rfl

theorem mergeAssigneeIds_search (f : FilterOut) (args : SearchIssuesInput) :
    (mergeAssigneeIds f args).search = f.search := by
  unfold mergeAssigneeIds; cases args.assigneeIds <;> rfl

theorem mergeAssigneeIds_project (f : FilterOut) (args : SearchIssuesInput) :
    (mergeAssigneeIds f args).project = f.project := by
  unfold mergeAssigneeIds; cases args.assigneeIds <;> rfl

theorem mergeAssigneeIds_state (f : FilterOut) (args : SearchIssuesInput) :
    (mergeAssigneeIds f args).state = f.state := by
  unfold mergeAssigneeIds; cases args.assigneeIds <;> rfl

theorem mergeAssigneeIds_priority (f : FilterOut) (args : SearchIssuesInput) :
    (mergeAssigneeIds f args).priority = f.priority := by
  unfold mergeAssigneeIds; cases args.assigneeIds <;> rfl

theorem mergeStates_state (f : FilterOut) (args : SearchIssuesInput) :
    (mergeStates f args).state =
      match args.states with
      | some ss => some ss
      | none => f.state := by
  unfold mergeStates; cases args.states <;> rfl

theorem mergeStates_team (f : FilterOut) (args : SearchIssuesInput) :
    (mergeStates f args).team = f.team := by
  unfold mergeStates; cases args.states <;> rfl

theorem mergeStates_number (f : FilterOut) (args : SearchIssuesInput) :
    (mergeStates f args).number = f.number := by
  unfold mergeStates; cases args.states <;> rfl

theorem mergeStates_search (f : FilterOut) (args : SearchIssuesInput) :
    (mergeStates f args).search = f.search := by
  unfold mergeStates; cases args.states <;> rfl

theorem mergeStates_project (f : FilterOut) (args : SearchIssuesInput) :
    (mergeStates f args).project = f.project := by
  unfold mergeStates; cases args.states <;> rfl

theorem mergeStates_assignee (f : FilterOut) (args : SearchIssuesInput) :
    (mergeStates f args).assignee = f.assignee := by
  unfold mergeStates; cases args.states <;> rfl

theorem mergeStates_priority (f : FilterOut) (args : SearchIssuesInput) :
    (mergeStates f args).priority = f.priority := by
  unfold mergeStates; cases args.states <;> rfl

theorem mergePriority_priority (f : FilterOut) (args : SearchIssuesInput) :
    (mergePriority f args).priority =
      match args.priority with
      | some p => some p
      | none => f.priority := by
  unfold mergePriority; cases args.priority <;> rfl

theorem mergePriority_team (f : FilterOut) (args : SearchIssuesInput) :
    (mergePriority f args).team = f.team := by
  unfold mergePriority; cases args.priority <;> rfl

theorem mergePriority_number (f : FilterOut) (args : SearchIssuesInput) :
    (mergePriority f args).number = f.number := by
  unfold mergePriority; cases args.priority <;> rfl

theorem mergePriority_search (f : FilterOut) (args : SearchIssuesInput) :
    (mergePriority f args).search = f.search := by
  unfold mergePriority; cases args.priority <;> rfl

theorem mergePriority_project (f : FilterOut) (args : SearchIssuesInput) :
    (mergePriority f args).project = f.project := by
  unfold mergePriority; cases args.priority <;> rfl

theorem mergePriority_assignee (f : FilterOut) (args : SearchIssuesInput) :
    (mergePriority f args).assignee = f.assignee := by
  unfold mergePriority; cases args.priority <;> rfl

theorem mergePriority_state (f : FilterOut) (args : SearchIssuesInput) :
    (mergePriority f args).state = f.state := by
  unfold mergePriority; cases args.priority <;> rfl

theorem buildFilter_team (args : SearchIssuesInput) :
    (buildFilter args).team =
      match args.teamIds with
      | some ids => some (.idIn ids)
      | none => (queryFilter args).team := by
  unfold buildFilter
  rw [mergePriority_team, mergeStates_team, mergeAssigneeIds_team,
    mergeTeamIds_team, mergeProjectFilter_team]

theorem buildFilter_number (args : SearchIssuesInput) :
    (buildFilter args).number = (queryFilter args).number := by
  unfold buildFilter
  rw [mergePriority_number, mergeStates_number, mergeAssigneeIds_number,
    mergeTeamIds_number, mergeProjectFilter_number]

theorem buildFilter_search (args : SearchIssuesInput) :
    (buildFilter args).search = (queryFilter args).search := by
  unfold buildFilter
  rw [mergePriority_search, mergeStates_search, mergeAssigneeIds_search,
    mergeTeamIds_search, mergeProjectFilter_search]

theorem buildFilter_project (args : SearchIssuesInput) :
    (buildFilter args).project =
      match projectEqIn args with
      | some e => some e
      | none => (queryFilter args).project := by
  unfold buildFilter
  rw [mergePriority_project, mergeStates_project, mergeAssigneeIds_project,
    mergeTeamIds_project, mergeProjectFilter_project]

theorem buildFilter_assignee (args : SearchIssuesInput) :
    (buildFilter args).assignee =
      match args.assigneeIds with
      | some ids => some ids
      | none => (queryFilter args).assignee := by
  unfold buildFilter
  rw [mergePriority_assignee, mergeStates_assignee, mergeAssigneeIds_assignee,
    mergeTeamIds_assignee, mergeProjectFilter_assignee]

theorem buildFilter_state (args : SearchIssuesInput) :
    (buildFilter args).state =
      match args.states with
      | some ss => some ss
      | none => (queryFilter args).state := by
  unfold buildFilter
  rw [mergePriority_state, mergeStates_state, mergeAssigneeIds_state,
    mergeTeamIds_state, mergeProjectFilter_state]

theorem buildFilter_priority (args : SearchIssuesInput) :
    (buildFilter args).priority =
      match args.priority with
      | some p => some p
      | none => (queryFilter args).priority := by
  unfold buildFilter
  rw [mergePriority_priority, mergeStates_priority, mergeAssigneeIds_priority,
    mergeTeamIds_priority, mergeProjectFilter_priority]

theorem queryFilter_ident {args : SearchIssuesInput} {q L D : String}
    (hq : args.query = some q) (ht : jsTrim q = L ++ "-" ++ D)
    (hL0 : L ≠ "") (hD0 : D ≠ "")
    (hL : L.data.all isUpperAZ = true) (hD : D.data.all isDigit09 = true) :
    queryFilter args =
      { team := some (.keyEq L), number := some (digitsToNat D.data) } := by
  have hq0 : q ≠ "" := by
    intro he
    subst he
    rw [show jsTrim "" = "" from rfl] at ht
    have hlen := congrArg String.length ht
    rw [String.length_append, String.length_append,
      show ("" : String).length = 0 from rfl,
      show ("-" : String).length = 1 from rfl] at hlen
    omega
  simp only [queryFilter, hq, hq0, ht, isIdentShaped_concat hL0 hD0 hL hD,
    jsSplitHyphen_concat hL hD, ne_eq, not_false_iff, if_true, ite_true,
    List.headD, List.getD, List.get?, Option.getD_some]
  rw [parseInt10_of_digits hD]

theorem queryFilter_plain {args : SearchIssuesInput} {q : String}
    (hq : args.query = some q) (h0 : q ≠ "")
    (hni : isIdentShaped (jsTrim q) = false) :
    queryFilter args = { search := some q } := by
  simp only [queryFilter, hq, h0, hni, ne_eq, not_false_iff, if_true,
    Bool.false_eq_true, ite_false]

/-- C1, amended.  Directly supplied filters are merged into the filter
each under its own key, present fields only: project-id equality (when the
optional chain `filter?.project?.id?.eq` is truthy), team-id membership,
assignee-id membership, state-name membership and priority equality.  The
`team` key is shared with the identifier-query branch, so when the query
is identifier-shaped and `teamIds` is also supplied, the team-id
membership assignment overwrites the team-key equality term: the filter
passed to the backend then contains the team-id membership term and the
number equality term but no team-key equality term. -/
theorem C1_direct_filters_merge (args : SearchIssuesInput)
    (q L D : String) (tids aids ss : List String) (e : String) (p : Int) :
    (args.teamIds = some tids →
      (buildFilter args).team = some (.idIn tids)) ∧
    (projectEqIn args = some e → (buildFilter args).project = some e) ∧
    (args.assigneeIds = some aids →
      (buildFilter args).assignee = some aids) ∧
    (args.states = some ss → (buildFilter args).state = some ss) ∧
    (args.priority = some p → (buildFilter args).priority = some p) ∧
    (args.query = some q → jsTrim q = L ++ "-" ++ D → L ≠ "" → D ≠ "" →
      L.data.all isUpperAZ = true → D.data.all isDigit09 = true →
      args.teamIds = some tids →
      (buildFilter args).team = some (.idIn tids) ∧
      (buildFilter args).number = some (digitsToNat D.data) ∧
      ∀ k, (buildFilter args).team ≠ some (TeamFilterOut.keyEq k)) := by
  refine ⟨?_, ?_, ?_, ?_, ?_, ?_⟩
  · intro h
    rw [buildFilter_team, h]
  · intro h
    rw [buildFilter_project, h]
  · intro h
    rw [buildFilter_assignee, h]
  · intro h
    rw [buildFilter_state, h]
  · intro h
    rw [buildFilter_priority, h]
  · intro hq ht hL0 hD0 hL hD htid
    refine ⟨?_, ?_, ?_⟩
    · rw [buildFilter_team, htid]
    · rw [buildFilter_number, queryFilter_ident hq ht hL0 hD0 hL hD]
    · intro k hk
      rw [buildFilter_team, htid] at hk
      simp at hk

/-- C1 counterexample: with the identifier-shaped query `TEAM-42` and
`teamIds = ["t1"]` supplied together, the filter passed to the backend
holds the team-id membership term under `team` and no team-key equality
term, refuting the claim that both terms are present; the number term
survives. -/
def c1Args : SearchIssuesInput :=
  { query := some "TEAM-42", teamIds := some ["t1"] }

theorem C1_counterexample :
    (buildFilter c1Args).number = some 42 ∧
    (buildFilter c1Args).team = some (.idIn ["t1"]) ∧
    ¬ (buildFilter c1Args).team = some (TeamFilterOut.keyEq "TEAM") := by
  decide

/-- C1 witness: all direct filters supplied at once, alongside an
identifier-shaped query; each lands under its own key and the team-id
membership overwrites the query-branch team term. -/
def c1WitnessArgs : SearchIssuesInput :=
  { query := some "QA-3",
    filter := some { project := some { id := some { eq := some "p1" } } },
    teamIds := some ["t1", "t2"], assigneeIds := some ["a1"],
    states := some ["Done"], priority := some 2 }

theorem C1_witness :
    (buildFilter c1WitnessArgs).team = some (.idIn ["t1", "t2"]) ∧
    (buildFilter c1WitnessArgs).project = some "p1" ∧
    (buildFilter c1WitnessArgs).assignee = some ["a1"] ∧
    (buildFilter c1WitnessArgs).state = some ["Done"] ∧
    (buildFilter c1WitnessArgs).priority = some 2 ∧
    (buildFilter c1WitnessArgs).number = some (digitsToNat "3".data) := by
  have h := C1_direct_filters_merge c1WitnessArgs "QA-3" "QA" "3"
    ["t1", "t2"] ["a1"] ["Done"] "p1" 2
  have h6 := h.2.2.2.2.2 rfl (by decide) (by decide) (by decide)
    (by decide) (by decide) rfl
  exact ⟨h.1 rfl, h.2.1 (by decide), h.2.2.1 rfl, h.2.2.2.1 rfl,
    h.2.2.2.2.1 rfl, h6.2.1⟩

/-- C4, amended.  A trimmed query of the shape uppercase-letters, hyphen,
digits yields a team-key equality term on the letters and a number
equality term on the digits parsed as a decimal integer, and no full-text
search term — the team-key term surviving only when `teamIds` is not also
supplied, since that direct filter overwrites the `team` key.  A
non-empty query not of that shape yields a search term equal to the
(untrimmed) query and no team-key or number term. -/
theorem C4_query_branch (args : SearchIssuesInput) (q L D : String) :
    (args.query = some q → jsTrim q = L ++ "-" ++ D → L ≠ "" → D ≠ "" →
      L.data.all isUpperAZ = true → D.data.all isDigit09 = true →
      (buildFilter args).number = some (digitsToNat D.data) ∧
      (buildFilter args).search = none ∧
      (args.teamIds = none →
        (buildFilter args).team = some (.keyEq L))) ∧
    (args.query = some q → q ≠ "" → isIdentShaped (jsTrim q) = false →
      (buildFilter args).search = some q ∧
      (buildFilter args).number = none ∧
      ∀ k, (buildFilter args).team ≠ some (TeamFilterOut.keyEq k)) := by
  constructor
  · intro hq ht hL0 hD0 hL hD
    have hqf := queryFilter_ident hq ht hL0 hD0 hL hD
    refine ⟨?_, ?_, ?_⟩
    · rw [buildFilter_number, hqf]
    · rw [buildFilter_search, hqf]
    · intro htid
      rw [buildFilter_team, htid, hqf]
  · intro hq h0 hni
    have hqf := queryFilter_plain hq h0 hni
    refine ⟨?_, ?_, ?_⟩
    · rw [buildFilter_search, hqf]
    · rw [buildFilter_number, hqf]
    · intro k hk
      rw [buildFilter_team] at hk
      cases htid : args.teamIds with
      | some ids => rw [htid] at hk; simp at hk
      | none => rw [htid, hqf] at hk; simp at hk

/-- C4 counterexample: the claim asserts the team-key equality term for
every identifier-shaped query, but supplying `teamIds` alongside the
query `ABC-7` overwrites the `team` key: no team-key equality term
remains (the number term does). -/
def c4Args : SearchIssuesInput :=
  { query := some "ABC-7", teamIds := some ["team-9"] }

theorem C4_counterexample :
    ¬ (buildFilter c4Args).team = some (TeamFilterOut.keyEq "ABC") ∧
    (buildFilter c4Args).number = some 7 ∧
    (buildFilter c4Args).search = none := by
  decide

/-- C4 witness: query `TEAM-42` alone gives exactly the
team-key/number filter of the claim and no search term; the non-matching
query `hello world` gives only a search term. -/
theorem C4_witness :
    (buildFilter { query := some "TEAM-42" }).number =
      some (digitsToNat "42".data) ∧
    (buildFilter { query := some "TEAM-42" }).search = none ∧
    (buildFilter { query := some "TEAM-42" }).team =
      some (.keyEq "TEAM") ∧
    (buildFilter { query := some "hello world" }).search =
      some "hello world" ∧
    (buildFilter { query := some "hello world" }).number = none := by
  have h1 := (C4_query_branch { query := some "TEAM-42" }
    "TEAM-42" "TEAM" "42").1 rfl (by decide) (by decide) (by decide)
    (by decide) (by decide)
  have h2 := (C4_query_branch { query := some "hello world" }
    "hello world" "X" "0").2 rfl (by decide) (by decide)
  exact ⟨h1.1, h1.2.1, h1.2.2 rfl, h2.1, h2.2.1⟩

/-! ## Concrete fixtures for witnesses and counterexamples -/

/-- A fully populated issue reply. -/
def issueEx : Issue :=
  { id := "uuid-1", identifier := "ENG-1", title := "Fix bug",
    url := "https://linear.app/issue/ENG-1",
    project := some { name := "Alpha" },
    parent := some { id := "uuid-0", identifier := "ENG-0",
                     title := "Parent issue" },
    state := some { name := "Done" } }

/-- A comment reply whose author has no display name. -/
def commentEx : Comment :=
  { id := "c1", body := "hi", url := "u1",
    user := { name := "bob", displayName := "" },
    createdAt := "2024-01-01T00:00:00Z" }

/-- Two teams, both owning a state named `Done`: listing order decides. -/
def teamsEx : TeamsResponse :=
  { teams := { nodes :=
      [ { states := [{ id := "state-1", name := "Done" }] },
        { states := [{ id := "state-2", name := "Done" },
                     { id := "state-3", name := "In Progress" }] } ] } }

/-- A happy-path backend: every operation succeeds with a full payload. -/
def clientEx : Client :=
  { createIssue := fun _ =>
      { issueCreate := { success := true, issue := some issueEx } },
    createIssues := fun _ =>
      { issueBatchCreate := { success := true, issues := some [issueEx] } },
    updateIssue := fun _ _ =>
      { issueUpdate := { success := true, issue := some issueEx } },
    updateIssues := fun _ _ =>
      { issueUpdate := { success := true, issue := some issueEx } },
    searchIssues := fun _ _ _ _ =>
      { issues := { pageInfo := { hasNextPage := false, endCursor := none },
                    nodes := [issueEx] } },
    deleteIssue := fun _ => { issueDelete := { success := true } },
    deleteIssues := fun _ => { issueDelete := { success := true } },
    addComment := fun _ =>
      { commentCreate := { success := true, comment := some commentEx } },
    getComments := fun _ _ _ =>
      { issue := some
          { comments := some
              { nodes := [commentEx],
                pageInfo := { hasNextPage := true,
                              endCursor := some "cursor-1" } } } },
    getTeams := teamsEx }

/-- A concrete date formatter standing in for `toLocaleString` in closed
witness statements. -/
def fmtEx : String → String := fun s => s

/-- A UUID-shaped opaque state id. -/
def uuidEx : String := "0123abcd-0123-abcd-0123-0123456789ab"

/-! ## Handler helper lemmas -/

theorem validateRequired_update_none {id : String} (h : id ≠ "") :
    validateRequired [("id", truthyStr id), ("update", true)] = none := by
  simp [validateRequired, truthyStr, h]

theorem validateRequired_bulk_none {ids : List String} (h : ids ≠ []) :
    validateRequired
      [("issueIds", truthyArr ids), ("update", true)] = none := by
  simp [validateRequired, truthyArr, List.isEmpty_iff, h]

theorem singleUpdateMutation_calls (client : Client) (id : String)
    (upd : UpdateIssueInput) (calls0 : List Call) :
    (singleUpdateMutation client id upd calls0).2 =
      calls0 ++ [Call.updateIssue id upd] := by
  unfold singleUpdateMutation
  dsimp only
  split
  · split <;> rfl
  · rfl

theorem bulkUpdateMutation_calls (client : Client) (ids : List String)
    (upd : UpdateIssueInput) (calls0 : List Call) :
    (bulkUpdateMutation client ids upd calls0).2 =
      calls0 ++ [Call.updateIssues ids upd] := by
  unfold bulkUpdateMutation
  dsimp only
  split <;> rfl

theorem failed_update_ne_not_found (msg : String) :
    ("Failed to update issue" : String) ≠
      "Could not find state with name: " ++ msg := by
  intro h
  have hlen := congrArg String.length h
  rw [String.length_append,
    show ("Failed to update issue" : String).length = 22 from rfl,
    show ("Could not find state with name: " : String).length = 32 from rfl]
    at hlen
  omega

theorem failed_bulk_update_ne_not_found (msg : String) :
    ("Failed to update issues" : String) ≠
      "Could not find state with name: " ++ msg := by
  intro h
  have hlen := congrArg String.length h
  rw [String.length_append,
    show ("Failed to update issues" : String).length = 23 from rfl,
    show ("Could not find state with name: " : String).length = 32 from rfl]
    at hlen
  omega

/-- C3.  State-name resolution for updates: a non-UUID-shaped state name
resolves to the id of the first state — scanning teams in listing order
and, within each team, states in listing order, i.e. the first match in
the team-flattened state list — whose lowercased name equals the
lowercased input, regardless of the owning team; a UUID-shaped `stateId`
triggers no team lookup and reaches the mutation unchanged, in both the
single-issue and bulk handlers; and both handlers resolve with the same
lookup function. -/
theorem C3_state_resolution (teams : List Team) (nm s : String)
    (client : Client) (a1 : UpdateIssueInputWithId)
    (a2 : BulkUpdateIssuesInput) (u1 u2 : UpdateIssueInput) :
    (findStateIdSingle teams (jsToLower nm) =
      findStateIdBulk teams (jsToLower nm)) ∧
    (findStateIdSingle teams (jsToLower nm) =
      ((teams.flatMap Team.states).find?
        (fun st => jsToLower st.name == jsToLower nm)).map TeamState.id) ∧
    (a1.id ≠ "" → a1.update = some u1 → u1.stateId = some s →
      isUuidShaped s = true →
      handleUpdateIssue client a1 = singleUpdateMutation client a1.id u1 [] ∧
      (handleUpdateIssue client a1).2 = [Call.updateIssue a1.id u1]) ∧
    (a2.issueIds ≠ [] → a2.update = some u2 → u2.stateId = some s →
      isUuidShaped s = true →
      handleBulkUpdateIssues client a2 =
        bulkUpdateMutation client a2.issueIds u2 [] ∧
      (handleBulkUpdateIssues client a2).2 =
        [Call.updateIssues a2.issueIds u2]) := by
  refine ⟨?_, ?_, ?_, ?_⟩
  · induction teams with
    | nil => rfl
    | cons t rest ih =>
      cases h : t.states.find? (fun st => jsToLower st.name == jsToLower nm) with
      | some st => simp [findStateIdSingle, findStateIdBulk, h]
      | none => simp [findStateIdSingle, findStateIdBulk, h, ih]
  · induction teams with
    | nil => rfl
    | cons t rest ih =>
      rw [List.flatMap_cons, List.find?_append]
      cases h : t.states.find? (fun st => jsToLower st.name == jsToLower nm) with
      | some st => simp [findStateIdSingle, h]
      | none => simp [findStateIdSingle, h, ih]
  · intro hid hupd hsid huuid
    have hv := validateRequired_update_none hid
    have htr : (truthyStr s && !isUuidShaped s) = false := by
      rw [huuid]; simp
    have hres :
        handleUpdateIssue client a1 = singleUpdateMutation client a1.id u1 [] := by
      simp [handleUpdateIssue, hupd, hv, hsid, htr]
    exact ⟨hres, by rw [hres, singleUpdateMutation_calls]; simp⟩
  · intro hid hupd hsid huuid
    have hv := validateRequired_bulk_none hid
    have htr : (truthyStr s && !isUuidShaped s) = false := by
      rw [huuid]; simp
    have hres :
        handleBulkUpdateIssues client a2 =
          bulkUpdateMutation client a2.issueIds u2 [] := by
      simp [handleBulkUpdateIssues, hupd, hv, hsid, htr]
    exact ⟨hres, by rw [hres, bulkUpdateMutation_calls]; simp⟩

/-- C3 witness: with two teams both owning a `Done` state, the name
resolves to the first team's state id in both handlers; a UUID-shaped
`stateId` goes straight to the mutation with no team lookup. -/
theorem C3_witness :
    findStateIdSingle teamsEx.teams.nodes (jsToLower "Done") =
      findStateIdBulk teamsEx.teams.nodes (jsToLower "Done") ∧
    findStateIdSingle teamsEx.teams.nodes (jsToLower "Done") =
      ((teamsEx.teams.nodes.flatMap Team.states).find?
        (fun st => jsToLower st.name == jsToLower "Done")).map TeamState.id ∧
    (handleUpdateIssue clientEx
      ⟨"id1", some { stateId := some uuidEx }⟩).2 =
      [Call.updateIssue "id1" { stateId := some uuidEx }] ∧
    (handleBulkUpdateIssues clientEx
      ⟨["id1"], some { stateId := some uuidEx }⟩).2 =
      [Call.updateIssues ["id1"] { stateId := some uuidEx }] := by
  have h := C3_state_resolution teamsEx.teams.nodes "Done" uuidEx clientEx
    ⟨"id1", some { stateId := some uuidEx }⟩
    ⟨["id1"], some { stateId := some uuidEx }⟩
    { stateId := some uuidEx } { stateId := some uuidEx }
  refine ⟨h.1, h.2.1, ?_, ?_⟩
  · exact (h.2.2.1 (by decide) rfl rfl (by decide)).2
  · exact (h.2.2.2 (by decide) rfl rfl (by decide)).2

/-- C6.  A truthy, non-UUID-shaped `stateId` matching no state name in
the fetched teams (case-insensitively) makes the operation fail with an
error naming the unresolved value, after only the team lookup — the
backend update is never invoked; and a match replaces `stateId` in place
with the resolved id before the mutation call.  Both for the single and
the bulk handler. -/
theorem C6_unresolved_state (client : Client) (a1 : UpdateIssueInputWithId)
    (a2 : BulkUpdateIssuesInput) (u1 u2 : UpdateIssueInput)
    (s sid : String) :
    (a1.id ≠ "" → a1.update = some u1 → u1.stateId = some s → s ≠ "" →
      isUuidShaped s = false →
      (findStateIdSingle (client.getTeams).teams.nodes (jsToLower s) = none →
        handleUpdateIssue client a1 =
          (.error (.thrown ("Could not find state with name: " ++ s)),
           [Call.getTeams])) ∧
      (findStateIdSingle (client.getTeams).teams.nodes (jsToLower s) =
          some sid →
        handleUpdateIssue client a1 =
          singleUpdateMutation client a1.id
            { u1 with stateId := some sid } [Call.getTeams] ∧
        (handleUpdateIssue client a1).2 =
          [Call.getTeams,
           Call.updateIssue a1.id { u1 with stateId := some sid }])) ∧
    (a2.issueIds ≠ [] → a2.update = some u2 → u2.stateId = some s →
      s ≠ "" → isUuidShaped s = false →
      (findStateIdBulk (client.getTeams).teams.nodes (jsToLower s) = none →
        handleBulkUpdateIssues client a2 =
          (.error (.thrown ("Could not find state with name: " ++ s)),
           [Call.getTeams])) ∧
      (findStateIdBulk (client.getTeams).teams.nodes (jsToLower s) =
          some sid →
        handleBulkUpdateIssues client a2 =
          bulkUpdateMutation client a2.issueIds
            { u2 with stateId := some sid } [Call.getTeams] ∧
        (handleBulkUpdateIssues client a2).2 =
          [Call.getTeams,
           Call.updateIssues a2.issueIds
             { u2 with stateId := some sid }])) := by
  constructor
  · intro hid hupd hsid hs huuid
    have hv := validateRequired_update_none hid
    have htr : (truthyStr s && !isUuidShaped s) = true := by
      rw [huuid]
      simp [truthyStr, hs]
    constructor
    · intro hfind
      simp [handleUpdateIssue, hupd, hv, hsid, htr, hfind]
    · intro hfind
      have hres : handleUpdateIssue client a1 =
          singleUpdateMutation client a1.id
            { u1 with stateId := some sid } [Call.getTeams] := by
        simp [handleUpdateIssue, hupd, hv, hsid, htr, hfind]
      exact ⟨hres, by rw [hres, singleUpdateMutation_calls]; simp⟩
  · intro hid hupd hsid hs huuid
    have hv := validateRequired_bulk_none hid
    have htr : (truthyStr s && !isUuidShaped s) = true := by
      rw [huuid]
      simp [truthyStr, hs]
    constructor
    · intro hfind
      simp [handleBulkUpdateIssues, hupd, hv, hsid, htr, hfind]
    · intro hfind
      have hres : handleBulkUpdateIssues client a2 =
          bulkUpdateMutation client a2.issueIds
            { u2 with stateId := some sid } [Call.getTeams] := by
        simp [handleBulkUpdateIssues, hupd, hv, hsid, htr, hfind]
      exact ⟨hres, by rw [hres, bulkUpdateMutation_calls]; simp⟩

/-- C6 witness: `Unknown` matches no state and fails after only the team
lookup, in both handlers; the lowercase name `done` resolves and the
mutation receives the replaced id `state-1`. -/
theorem C6_witness :
    handleUpdateIssue clientEx ⟨"id1", some { stateId := some "Unknown" }⟩ =
      (.error (.thrown ("Could not find state with name: " ++ "Unknown")),
       [Call.getTeams]) ∧
    (handleUpdateIssue clientEx ⟨"id1", some { stateId := some "done" }⟩).2 =
      [Call.getTeams, Call.updateIssue "id1" { stateId := some "state-1" }] ∧
    handleBulkUpdateIssues clientEx
      ⟨["i1", "i2"], some { stateId := some "Unknown" }⟩ =
      (.error (.thrown ("Could not find state with name: " ++ "Unknown")),
       [Call.getTeams]) := by
  refine ⟨?_, ?_, ?_⟩
  · exact ((C6_unresolved_state clientEx
      ⟨"id1", some { stateId := some "Unknown" }⟩
      ⟨["i1", "i2"], some { stateId := some "Unknown" }⟩
      { stateId := some "Unknown" } { stateId := some "Unknown" }
      "Unknown" "state-1").1 (by decide) rfl rfl (by decide) (by decide)).1
      (by decide)
  · exact (((C6_unresolved_state clientEx
      ⟨"id1", some { stateId := some "done" }⟩
      ⟨["i1"], some { stateId := some "done" }⟩
      { stateId := some "done" } { stateId := some "done" }
      "done" "state-1").1 (by decide) rfl rfl (by decide) (by decide)).2
      (by decide)).2
  · exact ((C6_unresolved_state clientEx
      ⟨"id2", some { stateId := some "Unknown" }⟩
      ⟨["i1", "i2"], some { stateId := some "Unknown" }⟩
      { stateId := some "Unknown" } { stateId := some "Unknown" }
      "Unknown" "state-1").2 (by decide) rfl rfl (by decide) (by decide)).1
      (by decide)

/-- C9.  An empty-string `stateId` is falsy, so the resolution branch is
skipped entirely: no team lookup happens, no unresolved-reference error
can be raised, and the empty string is passed unchanged to the backend
update, in both the single and bulk handlers. -/
theorem C9_empty_stateId_skips_resolution (client : Client)
    (a1 : UpdateIssueInputWithId) (a2 : BulkUpdateIssuesInput)
    (u1 u2 : UpdateIssueInput) :
    (a1.id ≠ "" → a1.update = some u1 → u1.stateId = some "" →
      handleUpdateIssue client a1 = singleUpdateMutation client a1.id u1 [] ∧
      (handleUpdateIssue client a1).2 = [Call.updateIssue a1.id u1] ∧
      ∀ msg, (handleUpdateIssue client a1).1 ≠
        .error (.thrown ("Could not find state with name: " ++ msg))) ∧
    (a2.issueIds ≠ [] → a2.update = some u2 → u2.stateId = some "" →
      handleBulkUpdateIssues client a2 =
        bulkUpdateMutation client a2.issueIds u2 [] ∧
      (handleBulkUpdateIssues client a2).2 =
        [Call.updateIssues a2.issueIds u2] ∧
      ∀ msg, (handleBulkUpdateIssues client a2).1 ≠
        .error (.thrown ("Could not find state with name: " ++ msg))) := by
  constructor
  · intro hid hupd hsid
    have hv := validateRequired_update_none hid
    have htr : (truthyStr "" && !isUuidShaped "") = false := by decide
    have hres :
        handleUpdateIssue client a1 = singleUpdateMutation client a1.id u1 [] := by
      simp [handleUpdateIssue, hupd, hv, hsid, htr]
    refine ⟨hres, by rw [hres, singleUpdateMutation_calls]; simp, ?_⟩
    intro msg hmsg
    rw [hres] at hmsg
    unfold singleUpdateMutation at hmsg
    dsimp only at hmsg
    cases hsucc : (client.updateIssue a1.id u1).issueUpdate.success with
    | false =>
      rw [hsucc] at hmsg
      simp at hmsg
      exact failed_update_ne_not_found msg hmsg
    | true =>
      rw [hsucc] at hmsg
      cases hiss : (client.updateIssue a1.id u1).issueUpdate.issue with
      | none => rw [hiss] at hmsg; simp at hmsg
      | some issue => rw [hiss] at hmsg; simp at hmsg
  · intro hid hupd hsid
    have hv := validateRequired_bulk_none hid
    have htr : (truthyStr "" && !isUuidShaped "") = false := by decide
    have hres :
        handleBulkUpdateIssues client a2 =
          bulkUpdateMutation client a2.issueIds u2 [] := by
      simp [handleBulkUpdateIssues, hupd, hv, hsid, htr]
    refine ⟨hres, by rw [hres, bulkUpdateMutation_calls]; simp, ?_⟩
    intro msg hmsg
    rw [hres] at hmsg
    unfold bulkUpdateMutation at hmsg
    dsimp only at hmsg
    cases hsucc : (client.updateIssues a2.issueIds u2).issueUpdate.success with
    | false =>
      rw [hsucc] at hmsg
      simp at hmsg
      exact failed_bulk_update_ne_not_found msg hmsg
    | true =>
      rw [hsucc] at hmsg
      simp at hmsg

/-- C9 witness: `stateId = ""` goes straight to the mutation, unchanged,
with no team lookup, in both handlers. -/
theorem C9_witness :
    (handleUpdateIssue clientEx ⟨"id1", some { stateId := some "" }⟩).2 =
      [Call.updateIssue "id1" { stateId := some "" }] ∧
    (handleBulkUpdateIssues clientEx
      ⟨["i1"], some { stateId := some "" }⟩).2 =
      [Call.updateIssues ["i1"] { stateId := some "" }] := by
  have h := C9_empty_stateId_skips_resolution clientEx
    ⟨"id1", some { stateId := some "" }⟩
    ⟨["i1"], some { stateId := some "" }⟩
    { stateId := some "" } { stateId := some "" }
  exact ⟨(h.1 (by decide) rfl rfl).2.1, (h.2 (by decide) rfl rfl).2.1⟩

/-- Decidable equality of handler results, for concrete evaluation. -/
instance exceptDecEq {e a : Type} [DecidableEq e] [DecidableEq a] :
    DecidableEq (Except e a) := fun x y =>
  match x, y with
  | .error u, .error v =>
    decidable_of_iff (u = v) ⟨fun h => by rw [h], fun h => by injection h⟩
  | .error _, .ok _ => isFalse fun h => Except.noConfusion h
  | .ok _, .error _ => isFalse fun h => Except.noConfusion h
  | .ok u, .ok v =>
    decidable_of_iff (u = v) ⟨fun h => by rw [h], fun h => by injection h⟩

/-- Whether `pat` occurs at the head of `cs`. -/
def leadsWith : List Char → List Char → Bool
  | [], _ => true
  | _ :: _, [] => false
  | p :: ps, c :: cs => p == c && leadsWith ps cs

/-- Whether `pat` occurs anywhere in `cs`. -/
def hasSub (pat : List Char) : List Char → Bool
  | [] => pat.isEmpty
  | c :: cs => leadsWith pat (c :: cs) || hasSub pat cs

/-- Substring test on strings (used to state what a formatted summary
does and does not mention). -/
def strContains (s pat : String) : Bool := hasSub pat.data s.data

/-- C5.  Every operation with required fields validates them first —
reporting the first missing (absent or falsy; empty arrays count as
missing) field in declared order — and on a validation failure returns
the validation error without any backend call of any kind: the call
trace is empty. -/
theorem C5_validation_before_calls (fmt : String → String) (client : Client)
    (aC : CreateIssueInput) (aB : CreateIssuesInput)
    (aU : UpdateIssueInputWithId) (aBU : BulkUpdateIssuesInput)
    (aD : DeleteIssueInput) (aDs : DeleteIssuesInput)
    (aA : AddCommentInput) (aG : GetCommentsInput)
    (f : String) (fields : List (String × Bool)) :
    ((validateRequired fields).isSome ↔ ∃ p ∈ fields, p.2 = false) ∧
    (validateRequired [("title", truthyStr aC.title),
        ("description", truthyStr aC.description),
        ("teamId", truthyStr aC.teamId)] = some f →
      handleCreateIssue client aC = (.error (.validation f), [])) ∧
    (validateRequired [("issues", truthyArr aB.issues)] = some f →
      handleCreateIssues client aB = (.error (.validation f), [])) ∧
    (validateRequired [("id", truthyStr aU.id),
        ("update", aU.update.isSome)] = some f →
      handleUpdateIssue client aU = (.error (.validation f), [])) ∧
    (validateRequired [("issueIds", truthyArr aBU.issueIds),
        ("update", aBU.update.isSome)] = some f →
      handleBulkUpdateIssues client aBU = (.error (.validation f), [])) ∧
    (validateRequired [("id", truthyStr aD.id)] = some f →
      handleDeleteIssue client aD = (.error (.validation f), [])) ∧
    (validateRequired [("ids", truthyArr aDs.ids)] = some f →
      handleDeleteIssues client aDs = (.error (.validation f), [])) ∧
    (validateRequired [("issueId", truthyStr aA.issueId),
        ("body", truthyStr aA.body)] = some f →
      handleAddComment fmt client aA = (.error (.validation f), [])) ∧
    (validateRequired [("issueId", truthyStr aG.issueId)] = some f →
      handleGetComments fmt client aG = (.error (.validation f), [])) := by
  refine ⟨?_, ?_, ?_, ?_, ?_, ?_, ?_, ?_, ?_⟩
  · simp [validateRequired, List.find?_isSome]
  · intro h
    simp [handleCreateIssue, h]
  · intro h
    simp [handleCreateIssues, h]
  · intro h
    simp [handleUpdateIssue, h]
  · intro h
    simp [handleBulkUpdateIssues, h]
  · intro h
    simp [handleDeleteIssue, h]
  · intro h
    simp [handleDeleteIssues, h]
  · intro h
    simp [handleAddComment, h]
  · intro h
    simp [handleGetComments, h]

/-- C5 witness: a create request with an empty description fails naming
`description` (the first missing field in declared order) with an empty
call trace; an empty `issueIds` array fails naming `issueIds`; a missing
`issueId` fails the comments query — all without backend calls. -/
theorem C5_witness :
    handleCreateIssue clientEx
      { title := "t", description := "", teamId := "" } =
      (.error (.validation "description"), []) ∧
    handleBulkUpdateIssues clientEx ⟨[], some {}⟩ =
      (.error (.validation "issueIds"), []) ∧
    handleGetComments fmtEx clientEx ⟨"", none, none⟩ =
      (.error (.validation "issueId"), []) := by
  have h := C5_validation_before_calls fmtEx clientEx
    { title := "t", description := "", teamId := "" } ⟨[]⟩
    ⟨"", none⟩ ⟨[], some {}⟩ ⟨""⟩ ⟨[]⟩ { issueId := "", body := "" }
    ⟨"", none, none⟩
    "description" []
  have h2 := C5_validation_before_calls fmtEx clientEx
    { title := "t", description := "", teamId := "" } ⟨[]⟩
    ⟨"", none⟩ ⟨[], some {}⟩ ⟨""⟩ ⟨[]⟩ { issueId := "", body := "" }
    ⟨"", none, none⟩
    "issueIds" []
  have h3 := C5_validation_before_calls fmtEx clientEx
    { title := "t", description := "", teamId := "" } ⟨[]⟩
    ⟨"", none⟩ ⟨[], some {}⟩ ⟨""⟩ ⟨[]⟩ { issueId := "", body := "" }
    ⟨"", none, none⟩
    "issueId" []
  exact ⟨h.2.1 (by decide), h2.2.2.2.2.1 (by decide),
    (h3.2.2.2.2.2.2.2.2 : _) (by decide)⟩

/-- C2, amended.  For create issue, batch create and add comment, a reply
with `success = false`, or `success = true` with the required payload
missing, makes the operation fail with the operation-specific
operation-failed message and no formatted success result.  The
single-issue update checks only the success flag: `success = false`
raises its operation-failed message, but `success = true` with the issue
payload missing instead fails with the runtime type error raised by
dereferencing the missing payload — not the operation-failed message
(still, no formatted success result is produced). -/
theorem C2_operation_failed (fmt : String → String) (client : Client)
    (aC : CreateIssueInput) (aB : CreateIssuesInput) (aA : AddCommentInput)
    (aU : UpdateIssueInputWithId) (u : UpdateIssueInput) :
    (aC.title ≠ "" → aC.description ≠ "" → aC.teamId ≠ "" →
      ((client.createIssue aC).issueCreate.success = false ∨
        (client.createIssue aC).issueCreate.issue = none) →
      handleCreateIssue client aC =
        (.error (.thrown "Failed to create issue"), [Call.createIssue aC])) ∧
    (aB.issues ≠ [] →
      ((client.createIssues aB.issues).issueBatchCreate.success = false ∨
        (client.createIssues aB.issues).issueBatchCreate.issues = none) →
      handleCreateIssues client aB =
        (.error (.thrown "Failed to create issues"),
         [Call.createIssues aB.issues])) ∧
    (aA.issueId ≠ "" → aA.body ≠ "" →
      ((client.addComment aA).commentCreate.success = false ∨
        (client.addComment aA).commentCreate.comment = none) →
      handleAddComment fmt client aA =
        (.error (.thrown "Failed to add comment"), [Call.addComment aA])) ∧
    (aU.id ≠ "" → aU.update = some u → u.stateId = none →
      ((client.updateIssue aU.id u).issueUpdate.success = false →
        handleUpdateIssue client aU =
          (.error (.thrown "Failed to update issue"),
           [Call.updateIssue aU.id u])) ∧
      ((client.updateIssue aU.id u).issueUpdate.success = true →
        (client.updateIssue aU.id u).issueUpdate.issue = none →
        handleUpdateIssue client aU =
          (.error (.typeError "identifier"), [Call.updateIssue aU.id u]))) := by
  refine ⟨?_, ?_, ?_, ?_⟩
  · intro h1 h2 h3 hfail
    have hv : validateRequired [("title", truthyStr aC.title),
        ("description", truthyStr aC.description),
        ("teamId", truthyStr aC.teamId)] = none := by
      simp [validateRequired, truthyStr, h1, h2, h3]
    cases hsucc : (client.createIssue aC).issueCreate.success with
    | false =>
      cases hiss : (client.createIssue aC).issueCreate.issue with
      | none => simp [handleCreateIssue, hv, hsucc, hiss]
      | some i => simp [handleCreateIssue, hv, hsucc, hiss]
    | true =>
      have hiss : (client.createIssue aC).issueCreate.issue = none := by
        rcases hfail with hf | hf
        · exact absurd (hsucc ▸ hf) (by decide)
        · exact hf
      simp [handleCreateIssue, hv, hsucc, hiss]
  · intro h1 hfail
    have hv : validateRequired [("issues", truthyArr aB.issues)] = none := by
      simp [validateRequired, truthyArr, List.isEmpty_iff, h1]
    cases hsucc : (client.createIssues aB.issues).issueBatchCreate.success with
    | false =>
      cases hiss : (client.createIssues aB.issues).issueBatchCreate.issues with
      | none => simp [handleCreateIssues, hv, hsucc, hiss]
      | some l => simp [handleCreateIssues, hv, hsucc, hiss]
    | true =>
      have hiss :
          (client.createIssues aB.issues).issueBatchCreate.issues = none := by
        rcases hfail with hf | hf
        · exact absurd (hsucc ▸ hf) (by decide)
        · exact hf
      simp [handleCreateIssues, hv, hsucc, hiss]
  · intro h1 h2 hfail
    have hv : validateRequired [("issueId", truthyStr aA.issueId),
        ("body", truthyStr aA.body)] = none := by
      simp [validateRequired, truthyStr, h1, h2]
    cases hsucc : (client.addComment aA).commentCreate.success with
    | false =>
      cases hcom : (client.addComment aA).commentCreate.comment with
      | none => simp [handleAddComment, hv, hsucc, hcom]
      | some c => simp [handleAddComment, hv, hsucc, hcom]
    | true =>
      have hcom : (client.addComment aA).commentCreate.comment = none := by
        rcases hfail with hf | hf
        · exact absurd (hsucc ▸ hf) (by decide)
        · exact hf
      simp [handleAddComment, hv, hsucc, hcom]
  · intro hid hupd hsid
    have hv := validateRequired_update_none hid
    constructor
    · intro hsucc
      simp [handleUpdateIssue, hupd, hv, hsid, singleUpdateMutation, hsucc]
    · intro hsucc hiss
      simp [handleUpdateIssue, hupd, hv, hsid, singleUpdateMutation,
        hsucc, hiss]

/-- C2 counterexample: an update reply with `success = true` and no issue
payload does not raise the operation-failed error `Failed to update
issue`; the handler fails with the runtime type error from reading
`identifier` on the missing payload. -/
def clientUpdNoIssue : Client :=
  { clientEx with updateIssue := fun _ _ =>
      { issueUpdate := { success := true, issue := none } } }

theorem C2_counterexample :
    handleUpdateIssue clientUpdNoIssue ⟨"id1", some {}⟩ =
      (.error (.typeError "identifier"), [Call.updateIssue "id1" {}]) ∧
    (handleUpdateIssue clientUpdNoIssue ⟨"id1", some {}⟩).1 ≠
      .error (.thrown "Failed to update issue") := by
  decide

/-- C2 witness: a backend reporting `success = false` on create, a
missing batch payload, `success = false` on add comment, and
`success = false` on update produces the four operation-failed messages. -/
def clientFailEx : Client :=
  { clientEx with
    createIssue := fun _ =>
      { issueCreate := { success := false, issue := none } },
    createIssues := fun _ =>
      { issueBatchCreate := { success := true, issues := none } },
    addComment := fun _ =>
      { commentCreate := { success := false, comment := some commentEx } },
    updateIssue := fun _ _ =>
      { issueUpdate := { success := false, issue := none } } }

theorem C2_witness :
    handleCreateIssue clientFailEx
      { title := "t", description := "d", teamId := "tm" } =
      (.error (.thrown "Failed to create issue"),
       [Call.createIssue { title := "t", description := "d",
                           teamId := "tm" }]) ∧
    handleCreateIssues clientFailEx
      ⟨[{ title := "t", description := "d", teamId := "tm" }]⟩ =
      (.error (.thrown "Failed to create issues"),
       [Call.createIssues [{ title := "t", description := "d",
                             teamId := "tm" }]]) ∧
    handleAddComment fmtEx clientFailEx { issueId := "i1", body := "b" } =
      (.error (.thrown "Failed to add comment"),
       [Call.addComment { issueId := "i1", body := "b" }]) ∧
    handleUpdateIssue clientFailEx ⟨"id1", some {}⟩ =
      (.error (.thrown "Failed to update issue"),
       [Call.updateIssue "id1" {}]) := by
  have h := C2_operation_failed fmtEx clientFailEx
    { title := "t", description := "d", teamId := "tm" }
    ⟨[{ title := "t", description := "d", teamId := "tm" }]⟩
    { issueId := "i1", body := "b" } ⟨"id1", some {}⟩ {}
  exact ⟨h.1 (by decide) (by decide) (by decide) (Or.inl rfl),
    h.2.1 (by decide) (Or.inr rfl),
    h.2.2.1 (by decide) (by decide) (Or.inl rfl),
    (h.2.2.2 (by decide) rfl rfl).1 rfl⟩

/-- C7, amended.  The summary of a successful single-issue update
contains the issue's identifier, title and url, and a state line showing
the state name (`Unknown` when the state is absent or empty); it carries
no project name, no `None` placeholder and no parent identifier line —
that contract belongs to single-issue create only. -/
theorem C7_update_summary (client : Client) (aU : UpdateIssueInputWithId)
    (u : UpdateIssueInput) (issue : Issue) :
    aU.id ≠ "" → aU.update = some u → u.stateId = none →
    (client.updateIssue aU.id u).issueUpdate.success = true →
    (client.updateIssue aU.id u).issueUpdate.issue = some issue →
    handleUpdateIssue client aU =
      (.ok (.text ("Successfully updated issue " ++ issue.identifier ++
        "\n" ++ "Title: " ++ issue.title ++ "\n" ++
        "URL: " ++ issue.url ++ "\n" ++
        "State: " ++ (match issue.state with
                      | some st => jsOrStr st.name "Unknown"
                      | none => "Unknown"))),
       [Call.updateIssue aU.id u]) := by
  intro hid hupd hsid hsucc hiss
  have hv := validateRequired_update_none hid
  simp [handleUpdateIssue, hupd, hv, hsid, singleUpdateMutation, hsucc, hiss]

/-- C7 counterexample: a successful update whose issue carries a project
named `Alpha` and a parent — the formatted summary mentions neither the
project name, nor `None`, nor a parent line; it shows the state instead,
refuting the claim that the update summary follows the create contract
(identifier, title, url, project with `None` fallback, conditional
parent line). -/
theorem C7_counterexample :
    handleUpdateIssue clientEx ⟨"id1", some {}⟩ =
      (.ok (.text ("Successfully updated issue ENG-1\nTitle: Fix bug\n" ++
        "URL: https://linear.app/issue/ENG-1\nState: Done")),
       [Call.updateIssue "id1" {}]) ∧
    (clientEx.updateIssue "id1" {}).issueUpdate.issue = some issueEx ∧
    issueEx.project = some { name := "Alpha" } ∧
    issueEx.parent.isSome = true ∧
    strContains ("Successfully updated issue ENG-1\nTitle: Fix bug\n" ++
      "URL: https://linear.app/issue/ENG-1\nState: Done") "Alpha" = false ∧
    strContains ("Successfully updated issue ENG-1\nTitle: Fix bug\n" ++
      "URL: https://linear.app/issue/ENG-1\nState: Done") "None" = false ∧
    strContains ("Successfully updated issue ENG-1\nTitle: Fix bug\n" ++
      "URL: https://linear.app/issue/ENG-1\nState: Done") "Parent" = false := by
  decide

/-- C7 witness: the amended summary contract evaluated on a concrete
successful update. -/
theorem C7_witness :
    handleUpdateIssue clientEx ⟨"id9", some {}⟩ =
      (.ok (.text ("Successfully updated issue " ++ issueEx.identifier ++
        "\n" ++ "Title: " ++ issueEx.title ++ "\n" ++
        "URL: " ++ issueEx.url ++ "\n" ++
        "State: " ++ (match issueEx.state with
                      | some st => jsOrStr st.name "Unknown"
                      | none => "Unknown"))),
       [Call.updateIssue "id9" {}]) :=
  C7_update_summary clientEx ⟨"id9", some {}⟩ {} issueEx (by decide)
    rfl rfl rfl rfl

/-- C8.  Get-comments is deterministic: its outcome depends on the
backend only through the single reply to its comments query, so two
invocations with identical arguments and identical replies produce
identical formatted output; and when `hasNextPage` is true the output is
the rendered list followed by exactly the pagination hint interpolating
the reply's `endCursor`. -/
theorem C8_get_comments_deterministic (fmt : String → String)
    (c1 c2 : Client) (args : GetCommentsInput) (page : CommentsPage) :
    (c1.getComments args.issueId (jsOrNat args.first 50) args.after =
      c2.getComments args.issueId (jsOrNat args.first 50) args.after →
      handleGetComments fmt c1 args = handleGetComments fmt c2 args) ∧
    (args.issueId ≠ "" →
      c1.getComments args.issueId (jsOrNat args.first 50) args.after =
        { issue := some { comments := some page } } →
      page.pageInfo.hasNextPage = true →
      handleGetComments fmt c1 args =
        (.ok (.text (renderComments fmt page.nodes ++
          ("\nThere are more comments available. Use \x27after: \"" ++
            jsInterpOptStr page.pageInfo.endCursor ++
            "\"\x27 to fetch the next page."))),
         [Call.getComments args.issueId (jsOrNat args.first 50)
            args.after])) := by
  constructor
  · intro h
    unfold handleGetComments
    cases hv : validateRequired [("issueId", truthyStr args.issueId)] with
    | some f => simp only [hv]
    | none =>
      simp only [hv]
      rw [h]
  · intro hisid hrep hnext
    have hv : validateRequired [("issueId", truthyStr args.issueId)] =
        none := by
      simp [validateRequired, truthyStr, hisid]
    simp [handleGetComments, hv, hrep, hnext, String.append_assoc]

/-- C8 witness: two invocations against the same backend agree, and with
`hasNextPage = true` and `endCursor = "cursor-1"` the output ends in the
hint interpolating that literal cursor. -/
theorem C8_witness :
    handleGetComments fmtEx clientEx ⟨"i1", none, none⟩ =
      handleGetComments fmtEx clientEx ⟨"i1", none, none⟩ ∧
    handleGetComments fmtEx clientEx ⟨"i1", none, none⟩ =
      (.ok (.text (renderComments fmtEx [commentEx] ++
        ("\nThere are more comments available. Use \x27after: \"" ++
          jsInterpOptStr (some "cursor-1") ++
          "\"\x27 to fetch the next page."))),
       [Call.getComments "i1" 50 none]) := by
  have h := C8_get_comments_deterministic fmtEx clientEx clientEx
    ⟨"i1", none, none⟩
    { nodes := [commentEx],
      pageInfo := { hasNextPage := true, endCursor := some "cursor-1" } }
  exact ⟨h.1 rfl, h.2 (by decide) rfl rfl⟩

theorem bulkUpdateMutation_ok (client : Client) (ids : List String)
    (upd : UpdateIssueInput) (calls0 : List Call) (r : ToolResponse)
    (tr : List Call) :
    bulkUpdateMutation client ids upd calls0 = (.ok r, tr) →
    r = .text ("Successfully updated " ++ toString ids.length ++
      " issues") := by
  unfold bulkUpdateMutation
  dsimp only
  split
  · intro h
    simp only [Prod.mk.injEq] at h
    injection h.1 with h1
    exact h1.symm
  · intro h
    simp at h

/-- C10.  Whenever the bulk update succeeds, the confirmation text counts
the caller-supplied `issueIds`: the backend reply contributes nothing to
the message beyond its success flag. -/
theorem C10_bulk_update_count (client : Client)
    (args : BulkUpdateIssuesInput) (r : ToolResponse) (tr : List Call) :
    handleBulkUpdateIssues client args = (.ok r, tr) →
    r = .text ("Successfully updated " ++ toString args.issueIds.length ++
      " issues") := by
  intro h
  unfold handleBulkUpdateIssues at h
  split at h
  · simp at h
  · split at h
    · simp at h
    · split at h
      · split at h
        · dsimp only at h
          split at h
          · simp at h
          · exact bulkUpdateMutation_ok _ _ _ _ _ _ h
        · exact bulkUpdateMutation_ok _ _ _ _ _ _ h
      · exact bulkUpdateMutation_ok _ _ _ _ _ _ h

/-- C10 witness: a successful bulk update of two ids reports exactly
`Successfully updated 2 issues`. -/
theorem C10_witness :
    handleBulkUpdateIssues clientEx ⟨["i1", "i2"], some {}⟩ =
      (.ok (.text "Successfully updated 2 issues"),
       [Call.updateIssues ["i1", "i2"] {}]) ∧
    ToolResponse.text "Successfully updated 2 issues" =
      .text ("Successfully updated " ++
        toString (["i1", "i2"] : List String).length ++ " issues") := by
  constructor
  · decide
  · exact C10_bulk_update_count clientEx ⟨["i1", "i2"], some {}⟩
      (.text "Successfully updated 2 issues")
      [Call.updateIssues ["i1", "i2"] {}] (by decide)
